import Mathlib

/-!
Verification of the scene-lifecycle and animation-scrubbing controller of the
project-sgi wall-lamp configurator (src/scripts/main.js).

The JavaScript source is shallowly embedded: the global mutable singletons
SceneState and AnimationState become Lean structures, each exported function
becomes a pure state-transformer, real-number arithmetic is modelled over ℚ
(the claims under study concern exact snapping, which the source achieves by
assigning the integer-derived value targetFrame / 60, exactly representable),
and the frame-callback side effects become an explicit event list.
-/

namespace SGI

/-- JavaScript Math.round: floor of x + 1/2 (ties round toward +infinity). -/
def jsRound (q : ℚ) : ℤ := ⌊q + 1/2⌋

/-- The status strings carried by the onFrame callbacks of the animation
controller (main.js lines 894-899, 913-918, 940-945). -/
inductive Status where
  | started
  | playing
  | completed
deriving DecidableEq, Repr

/-- One invocation of AnimationState.onFrameCallback, with the payload fields
of the object literal passed in the source. -/
structure CbEvent where
  currentFrame : ℤ
  targetFrame : ℤ
  status : Status
deriving DecidableEq, Repr

/-- The AnimationState singleton (main.js lines 465-475).  The clip actions
are driven in lock-step (every forEach in the source writes the same value of
paused to all of them), so the action list is modelled by the single shared
paused flag; the mixer is modelled by its presence flag and its time; the
onFrameCallback by its presence flag. -/
structure AnimationState where
  isPlaying : Bool
  currentFrame : ℤ
  targetFrame : ℤ
  direction : ℤ
  hasMixer : Bool
  mixerTime : ℚ
  actionsPaused : Bool
  speed : ℚ
  hasCallback : Bool
deriving DecidableEq, Repr

/-- The initial value of the AnimationState literal (main.js lines 465-475):
not playing, frame counters 0, direction 0, no mixer, speed 1.5, no
callback. -/
def initialAnimationState : AnimationState :=
  { isPlaying := false
    currentFrame := 0
    targetFrame := 0
    direction := 0
    hasMixer := false
    mixerTime := 0
    actionsPaused := true
    speed := 3/2
    hasCallback := false }

/-- initializeAnimations (main.js lines 851-871): builds a fresh mixer and
one action per clip, plays then immediately pauses every action, sets the
mixer time to 0 and currentFrame to 0.  The remaining fields (isPlaying,
targetFrame, direction, speed, onFrameCallback) are not written. -/
def initializeAnimations (s : AnimationState) : AnimationState :=
  { s with
    hasMixer := true
    actionsPaused := true
    mixerTime := 0
    currentFrame := 0 }

/-- updateAnimation (main.js lines 873-920): the per-tick advance.  Returns
the successor state together with the list of callback invocations the call
performs. -/
def updateAnimation (deltaTime : ℚ) (s : AnimationState) :
    AnimationState × List CbEvent :=
  if s.hasMixer = false ∨ s.isPlaying = false then (s, [])
  else
    if (0 < s.direction ∧ s.targetFrame ≤ jsRound (s.mixerTime * 60)) ∨
       (s.direction < 0 ∧ jsRound (s.mixerTime * 60) ≤ s.targetFrame) then
      ({ s with
          isPlaying := false
          direction := 0
          currentFrame := s.targetFrame
          mixerTime := (s.targetFrame : ℚ) / 60
          actionsPaused := true },
       if s.hasCallback = true then
         [⟨s.targetFrame, s.targetFrame, Status.completed⟩]
       else [])
    else
      ({ s with
          actionsPaused := false
          mixerTime := s.mixerTime + deltaTime * (s.direction : ℚ) * s.speed
          currentFrame := jsRound (s.mixerTime * 60) },
       if s.hasCallback = true then
         [⟨jsRound (s.mixerTime * 60), s.targetFrame, Status.playing⟩]
       else [])

/-- playToFrame (main.js lines 922-947).  The onFrame argument is modelled by
whether a callback was supplied (the source stores it and only ever tests it
for truthiness before invoking it). -/
def playToFrame (targetFrame : ℤ) (onFrame : Bool) (s : AnimationState) :
    AnimationState × List CbEvent :=
  if s.hasMixer = false then (s, [])
  else
    if jsRound (s.mixerTime * 60) = targetFrame then (s, [])
    else
      ({ s with
          hasCallback := onFrame
          direction := if jsRound (s.mixerTime * 60) < targetFrame then 1 else -1
          targetFrame := targetFrame
          isPlaying := true
          actionsPaused := false },
       if onFrame = true then
         [⟨jsRound (s.mixerTime * 60), targetFrame, Status.started⟩]
       else [])

/-- stopAnimation (main.js lines 949-959). -/
def stopAnimation (s : AnimationState) : AnimationState :=
  if s.hasMixer = false then s
  else
    { s with
      isPlaying := false
      direction := 0
      actionsPaused := true }

/-- setAnimationSpeed (main.js lines 961-963): unconditional write. -/
def setAnimationSpeed (speed : ℚ) (s : AnimationState) : AnimationState :=
  { s with speed := speed }

/-- The state component of one render-loop tick (main.js lines 966-976 call
updateAnimation with the clock delta). -/
def tick (d : ℚ) (s : AnimationState) : AnimationState := (updateAnimation d s).1

/-- Iterated render-loop ticks, consuming the per-tick wall-clock deltas from
the front of the sequence ds. -/
def runTicks (ds : ℕ → ℚ) : ℕ → AnimationState → AnimationState
  | 0, s => s
  | n + 1, s => runTicks (fun i => ds (i + 1)) n (tick (ds 0) s)

/-- The controller completes at tick n (counting from 0) toward target T:
after that tick the stored frame is exactly T, the mixer time is snapped to
exactly T / 60, playback is off, direction is 0, every action is paused, and
the tick invoked the callback (when one is stored) once with status
completed. -/
def completesTo (ds : ℕ → ℚ) (s : AnimationState) (n : ℕ) (T : ℤ) (cb : Bool) :
    Prop :=
  (runTicks ds (n + 1) s).currentFrame = T ∧
  (runTicks ds (n + 1) s).mixerTime = (T : ℚ) / 60 ∧
  (runTicks ds (n + 1) s).isPlaying = false ∧
  (runTicks ds (n + 1) s).direction = 0 ∧
  (runTicks ds (n + 1) s).actionsPaused = true ∧
  (updateAnimation (ds n) (runTicks ds n s)).2 =
    (if cb = true then [⟨T, T, Status.completed⟩] else [])

/-- The two structural clauses of the AnimationState invariant of the spec:
playing implies a nonzero direction, and direction 0 implies every action is
paused. -/
def dirPausedInv (s : AnimationState) : Prop :=
  (s.isPlaying = true → s.direction ≠ 0) ∧
  (s.direction = 0 → s.actionsPaused = true)

/-- The third clause of the claimed AnimationState invariant: currentFrame is
the rounded value of mixer time times the frame rate, and is non-negative. -/
def frameSyncInv (s : AnimationState) : Prop :=
  s.currentFrame = jsRound (s.mixerTime * 60) ∧ 0 ≤ s.currentFrame

/-- The full AnimationState invariant exactly as claimed. -/
def animationInv (s : AnimationState) : Prop :=
  dirPausedInv s ∧ frameSyncInv s

/-- A mid-seek state: mixer at time 0, seeking forward to frame 100 at speed
1.  It satisfies the full claimed invariant. -/
def animCexState : AnimationState :=
  { isPlaying := true
    currentFrame := 0
    targetFrame := 100
    direction := 1
    hasMixer := true
    mixerTime := 0
    actionsPaused := false
    speed := 1
    hasCallback := true }

/-- The SceneState singleton (main.js lines 443-463), with each owned handle
modelled by whether it is non-null. -/
structure SceneS where
  scene : Bool
  renderer : Bool
  camera : Bool
  controls : Bool
  support : Bool
  cylindricalBulb : Bool
  sphericalBulb : Bool
  blenderScene : Bool
  sky : Bool
  sun : Bool
  pointLight : Bool
  spotLight : Bool
  ambientLight : Bool
  hemisphereLight : Bool
  loadingComplete : Bool
  isLoading : Bool
deriving DecidableEq, Repr

/-- The initial SceneState literal (main.js lines 443-463): every handle
null, loadingComplete false, isLoading true. -/
def initialSceneState : SceneS :=
  { scene := false
    renderer := false
    camera := false
    controls := false
    support := false
    cylindricalBulb := false
    sphericalBulb := false
    blenderScene := false
    sky := false
    sun := false
    pointLight := false
    spotLight := false
    ambientLight := false
    hemisphereLight := false
    loadingComplete := false
    isLoading := true }

/-- cleanup3D (main.js lines 983-1005): disposes the renderer, nulls every
SceneState key, then restores loadingComplete to false and isLoading to
true.  It does not touch AnimationState. -/
def cleanup3D (_s : SceneS) : SceneS :=
  { scene := false
    renderer := false
    camera := false
    controls := false
    support := false
    cylindricalBulb := false
    sphericalBulb := false
    blenderScene := false
    sky := false
    sun := false
    pointLight := false
    spotLight := false
    ambientLight := false
    hemisphereLight := false
    loadingComplete := false
    isLoading := true }

/-- initScene (main.js lines 791-820): sets isLoading, joins the two loads
with Promise.all, and on joint success runs setupLighting, setupSky,
configureLights and marks loading complete.  Each load writes its handles
into SceneState from inside its own success callback before the join, so a
load that succeeded leaves its fields populated even when the other load
rejects; the catch block only logs and clears isLoading.  blenderOk and
modelOk are the outcomes of the two loads; hasPoint and hasSpot say whether
the loaded graph contains nodes named Point and Spot (getObjectByName
otherwise yields undefined, skipped silently).  The returned Bool records
whether the catch block logged an error. -/
def initScene (s : SceneS) (blenderOk modelOk hasPoint hasSpot : Bool) :
    SceneS × Bool :=
  let s1 := { s with isLoading := true }
  let s2 := if blenderOk = true then { s1 with blenderScene := true } else s1
  let s3 :=
    if modelOk = true then
      { s2 with
        support := true
        cylindricalBulb := true
        sphericalBulb := true }
    else s2
  if blenderOk = true ∧ modelOk = true then
    ({ s3 with
        hemisphereLight := true
        ambientLight := true
        sky := true
        sun := true
        pointLight := hasPoint
        spotLight := hasSpot
        loadingComplete := true
        isLoading := false },
     false)
  else
    ({ s3 with isLoading := false }, true)

/-- init3DScene (main.js lines 822-849): no-op when a scene already exists;
creates the renderer (rendererOk covers container and WebGL failures, which
are logged), then scene, camera and controls, then awaits initScene.  Because
initScene catches load failures internally and never rethrows, the catch
branch of init3DScene that would call cleanup3D is unreachable on a load
failure. -/
def init3DScene (s : SceneS) (rendererOk blenderOk modelOk hasPoint hasSpot : Bool) :
    SceneS × Bool :=
  if s.scene = true then (s, false)
  else if rendererOk = false then (s, true)
  else
    let s1 := { s with renderer := true, scene := true, camera := true, controls := true }
    initScene s1 blenderOk modelOk hasPoint hasSpot

/-- All fourteen context handles of a SceneState are null. -/
def contextFieldsNull (s : SceneS) : Prop :=
  s.scene = false ∧ s.renderer = false ∧ s.camera = false ∧ s.controls = false ∧
  s.support = false ∧ s.cylindricalBulb = false ∧ s.sphericalBulb = false ∧
  s.blenderScene = false ∧ s.sky = false ∧ s.sun = false ∧ s.pointLight = false ∧
  s.spotLight = false ∧ s.ambientLight = false ∧ s.hemisphereLight = false

/-- All fourteen context handles of a SceneState are populated. -/
def contextFieldsPopulated (s : SceneS) : Prop :=
  s.scene = true ∧ s.renderer = true ∧ s.camera = true ∧ s.controls = true ∧
  s.support = true ∧ s.cylindricalBulb = true ∧ s.sphericalBulb = true ∧
  s.blenderScene = true ∧ s.sky = true ∧ s.sun = true ∧ s.pointLight = true ∧
  s.spotLight = true ∧ s.ambientLight = true ∧ s.hemisphereLight = true

/-- The all-or-nothing SceneState invariant exactly as claimed. -/
def allOrNothing (s : SceneS) : Prop :=
  contextFieldsPopulated s ∨ contextFieldsNull s

/-- The lighting-relevant projection of SceneState for updateDaytime
(main.js lines 613-644): the guard flag, presence of each light handle and
the renderer, the stored sun angles, and the numeric intensities and
exposure. -/
structure LightS where
  loadingComplete : Bool
  hasHemisphere : Bool
  hasAmbient : Bool
  hasPoint : Bool
  hasSpot : Bool
  hasRenderer : Bool
  sunElevation : ℚ
  sunAzimuth : ℚ
  hemisphereIntensity : ℚ
  ambientIntensity : ℚ
  pointIntensity : ℚ
  spotIntensity : ℚ
  exposure : ℚ
deriving DecidableEq, Repr

/-- The intensity factor computed by updateDaytime (main.js lines 623-624):
Math.max(0.1, (elevation + 90) / 180).  Note the source has no upper
clamp. -/
def intensityFactor (elevation : ℚ) : ℚ :=
  max (1/10) ((elevation + 90) / 180)

/-- The intensity factor in the words of the spec: clamp(0.1, 1.0,
(elevation + 90) / 180).  Stated for comparison with intensityFactor, which
is translated from the source. -/
def specClampFactor (elevation : ℚ) : ℚ :=
  max (1/10) (min 1 ((elevation + 90) / 180))

/-- updateDaytime (main.js lines 613-644): no-op unless loading completed;
stores the sun angles, scales the hemisphere intensity 0.5 and ambient
intensity 0.2 multiplicatively by the factor, divides the point intensity 10
and spot intensity 40 by it, and sets the tone-mapping exposure to
Math.max(0.3, factor), each write guarded by presence of the handle. -/
def updateDaytime (elevation azimuth : ℚ) (s : LightS) : LightS :=
  if s.loadingComplete = false then s
  else
    { s with
      sunElevation := elevation
      sunAzimuth := azimuth
      hemisphereIntensity :=
        if s.hasHemisphere = true then (1/2) * intensityFactor elevation
        else s.hemisphereIntensity
      ambientIntensity :=
        if s.hasAmbient = true then (1/5) * intensityFactor elevation
        else s.ambientIntensity
      pointIntensity :=
        if s.hasPoint = true then 10 / intensityFactor elevation
        else s.pointIntensity
      spotIntensity :=
        if s.hasSpot = true then 40 / intensityFactor elevation
        else s.spotIntensity
      exposure :=
        if s.hasRenderer = true then max (3/10) (intensityFactor elevation)
        else s.exposure }

/-- A fully initialized lighting state: every handle present, intensities at
their configured values, exposure at the initial 0.5. -/
def lightReadyState : LightS :=
  { loadingComplete := true
    hasHemisphere := true
    hasAmbient := true
    hasPoint := true
    hasSpot := true
    hasRenderer := true
    sunElevation := 90
    sunAzimuth := 90
    hemisphereIntensity := 1/2
    ambientIntensity := 1/5
    pointIntensity := 10
    spotIntensity := 40
    exposure := 1/2 }

/-- C10: when no mixer is loaded, playToFrame, stopAnimation and the per-tick
updateAnimation all return immediately: no state field is written and no
callback fires. -/
theorem idle_operations_are_noops (T : ℤ) (b : Bool) (d : ℚ)
    (s : AnimationState) (h : s.hasMixer = false) :
    playToFrame T b s = (s, []) ∧ stopAnimation s = s ∧
    updateAnimation d s = (s, []) := by
  refine ⟨?_, ?_, ?_⟩ <;> simp [playToFrame, stopAnimation, updateAnimation, h]

/-- Witness for C10 at the initial AnimationState literal, whose mixer is
null. -/
theorem idle_operations_are_noops_witness :
    initialAnimationState.hasMixer = false ∧
    (playToFrame 5 true initialAnimationState = (initialAnimationState, []) ∧
     stopAnimation initialAnimationState = initialAnimationState ∧
     updateAnimation 1 initialAnimationState = (initialAnimationState, [])) :=
  ⟨rfl, idle_operations_are_noops 5 true 1 initialAnimationState rfl⟩

/-- C9: when the target frame equals the current frame (and the stored
currentFrame agrees with the rounded mixer time, as it does in every ready
state), playToFrame is a complete no-op: no callback fires and every field of
the AnimationState is unchanged. -/
theorem playToFrame_at_current_frame_noop (T : ℤ) (b : Bool)
    (s : AnimationState) (hm : s.hasMixer = true)
    (hsync : jsRound (s.mixerTime * 60) = s.currentFrame)
    (hcur : s.currentFrame = T) :
    playToFrame T b s = (s, []) := by
  simp [playToFrame, hm, hsync, hcur]

/-- Witness for C9: in the freshly initialized state the current frame is 0
and playToFrame 0 changes nothing. -/
theorem playToFrame_at_current_frame_noop_witness :
    (initializeAnimations initialAnimationState).hasMixer = true ∧
    jsRound ((initializeAnimations initialAnimationState).mixerTime * 60) =
      (initializeAnimations initialAnimationState).currentFrame ∧
    (initializeAnimations initialAnimationState).currentFrame = 0 ∧
    playToFrame 0 true (initializeAnimations initialAnimationState) =
      (initializeAnimations initialAnimationState, []) :=
  ⟨rfl, by norm_num [initializeAnimations, initialAnimationState, jsRound], rfl,
    playToFrame_at_current_frame_noop 0 true
      (initializeAnimations initialAnimationState) rfl
      (by norm_num [initializeAnimations, initialAnimationState, jsRound]) rfl⟩

/-- C6 counterexample: the full claimed AnimationState invariant holds in the
concrete mid-seek state animCexState, yet one advance tick breaks its third
clause — the tick stores the frame rounded from the mixer time sampled before
the mixer is advanced, so afterward currentFrame is 0 while the rounded
mixer-time frame is 60. -/
theorem animation_full_invariant_not_preserved :
    animationInv animCexState ∧ ¬ animationInv (tick 1 animCexState) := by
  constructor
  · exact ⟨⟨fun _ => by norm_num [animCexState],
        fun hd => absurd hd (by norm_num [animCexState])⟩,
      by norm_num [animCexState, jsRound], by norm_num [animCexState]⟩
  · intro hinv
    have h3 := hinv.2.1
    norm_num [tick, updateAnimation, animCexState, jsRound] at h3

/-- C6 amended: the two structural clauses of the invariant (playing implies
nonzero direction; direction 0 implies all actions paused) are preserved by
initialize, playToFrame, the advance tick, stop and setSpeed, and initialize
additionally establishes the frame-sync clause (currentFrame equals the
rounded mixer-time frame and is non-negative). -/
theorem animation_dir_paused_invariant_preserved (s : AnimationState)
    (h : dirPausedInv s) (T : ℤ) (b : Bool) (d q : ℚ) :
    dirPausedInv (initializeAnimations s) ∧
    dirPausedInv (playToFrame T b s).1 ∧
    dirPausedInv (tick d s) ∧
    dirPausedInv (stopAnimation s) ∧
    dirPausedInv (setAnimationSpeed q s) ∧
    frameSyncInv (initializeAnimations s) := by
  obtain ⟨h1, h2⟩ := h
  refine ⟨⟨h1, fun _ => rfl⟩, ?_, ?_, ?_, ⟨h1, h2⟩, ?_,
    by norm_num [initializeAnimations]⟩
  · rw [playToFrame]
    split
    · exact ⟨h1, h2⟩
    · split
      · exact ⟨h1, h2⟩
      · have hdir : (if jsRound (s.mixerTime * 60) < T then (1:ℤ) else -1) ≠ 0 := by
          split <;> norm_num
        exact ⟨fun _ => hdir, fun hd => absurd hd hdir⟩
  · rw [tick, updateAnimation]
    split
    · exact ⟨h1, h2⟩
    · next hg =>
      have hP : s.isPlaying = true := by
        cases hpv : s.isPlaying
        · exact absurd (Or.inr hpv) hg
        · rfl
      split
      · exact ⟨(fun hfalse => nomatch hfalse), fun _ => rfl⟩
      · exact ⟨fun _ => h1 hP, fun hd => absurd hd (h1 hP)⟩
  · rw [stopAnimation]
    split
    · exact ⟨h1, h2⟩
    · exact ⟨(fun hfalse => nomatch hfalse), fun _ => rfl⟩
  · show (0 : ℤ) = jsRound ((0 : ℚ) * 60)
    norm_num [jsRound]

/-- Witness for C6 amended, at the initial AnimationState with concrete
arguments. -/
theorem animation_dir_paused_invariant_preserved_witness :
    dirPausedInv initialAnimationState ∧
    dirPausedInv (tick 1 initialAnimationState) ∧
    dirPausedInv (playToFrame 5 true initialAnimationState).1 :=
  ⟨⟨(fun hfalse => nomatch hfalse), fun _ => rfl⟩,
   (animation_dir_paused_invariant_preserved initialAnimationState
      ⟨(fun hfalse => nomatch hfalse), fun _ => rfl⟩ 5 true 1 2).2.2.1,
   (animation_dir_paused_invariant_preserved initialAnimationState
      ⟨(fun hfalse => nomatch hfalse), fun _ => rfl⟩ 5 true 1 2).2.1⟩

/-- C2: concrete run of an activation in which the backdrop load resolves and
the model load rejects.  The catch block logs the error and clears isLoading,
but the scene, renderer, camera, controls and backdrop handles all remain
non-null, loading never completes, and — because init3DScene returns early
whenever SceneState.scene is non-null — a later fully-successful activation
is a no-op: the lifecycle does not return to idle. -/
theorem failed_load_leaves_partial_state :
    (init3DScene initialSceneState true true false true true).2 = true ∧
    (init3DScene initialSceneState true true false true true).1.isLoading = false ∧
    (init3DScene initialSceneState true true false true true).1.scene = true ∧
    (init3DScene initialSceneState true true false true true).1.renderer = true ∧
    (init3DScene initialSceneState true true false true true).1.camera = true ∧
    (init3DScene initialSceneState true true false true true).1.controls = true ∧
    (init3DScene initialSceneState true true false true true).1.blenderScene = true ∧
    (init3DScene initialSceneState true true false true true).1.loadingComplete = false ∧
    init3DScene (init3DScene initialSceneState true true false true true).1
        true true true true true =
      ((init3DScene initialSceneState true true false true true).1, false) := by
  norm_num [init3DScene, initScene, initialSceneState]

/-- C3 counterexample: after the activation in which the backdrop load
resolved and the model load rejected, the SceneState is neither all-populated
nor all-null — a partially initialized state is observable. -/
theorem scene_all_or_nothing_fails :
    ¬ allOrNothing (init3DScene initialSceneState true true false true true).1 := by
  intro hall
  rcases hall with hpop | hnull
  · have := hpop.2.2.2.2.1
    norm_num [init3DScene, initScene, initialSceneState] at this
  · have := hnull.1
    norm_num [init3DScene, initScene, initialSceneState] at this

/-- C3 amended: the all-or-nothing invariant does hold at the three
lifecycle points the spec names — every context handle is null in the
initial SceneState and after any cleanup3D, and every handle is populated
after a fully successful activation of a model containing the Point and Spot
nodes; a failed load, however, leaves the partial state exhibited in the
counterexample. -/
theorem scene_all_or_nothing_at_lifecycle_points (s : SceneS) :
    contextFieldsNull initialSceneState ∧
    contextFieldsNull (cleanup3D s) ∧
    contextFieldsPopulated (init3DScene initialSceneState true true true true true).1 := by
  refine ⟨?_, ?_, ?_⟩ <;>
    norm_num [contextFieldsNull, contextFieldsPopulated, initialSceneState,
      cleanup3D, init3DScene, initScene]

/-- C7 counterexample: a speed set during the first activation survives
deactivate-then-activate, because cleanup3D never touches AnimationState and
initializeAnimations does not reset the speed — the round trip does not
reproduce the first-ever activation state. -/
theorem roundtrip_speed_leaks :
    (initializeAnimations
        (setAnimationSpeed 3 (initializeAnimations initialAnimationState))).speed ≠
      (initializeAnimations initialAnimationState).speed := by
  norm_num [initializeAnimations, setAnimationSpeed, initialAnimationState]

/-- C7 amended: deactivate resets the SceneState exactly to its initial
literal, and re-activation rebuilds the mixer with time 0, currentFrame 0 and
all actions paused; but the speed, playing flag, direction, target frame and
stored callback of AnimationState all persist from the previous activation. -/
theorem roundtrip_resets_scene_but_not_animation (s : SceneS) (a : AnimationState) :
    cleanup3D s = initialSceneState ∧
    (initializeAnimations a).hasMixer = true ∧
    (initializeAnimations a).mixerTime = 0 ∧
    (initializeAnimations a).currentFrame = 0 ∧
    (initializeAnimations a).actionsPaused = true ∧
    (initializeAnimations a).speed = a.speed ∧
    (initializeAnimations a).isPlaying = a.isPlaying ∧
    (initializeAnimations a).direction = a.direction ∧
    (initializeAnimations a).targetFrame = a.targetFrame ∧
    (initializeAnimations a).hasCallback = a.hasCallback :=
  ⟨rfl, rfl, rfl, rfl, rfl, rfl, rfl, rfl, rfl, rfl⟩

/-- C4 counterexample: at elevation 270 the factor computed by the source is
max(0.1, 2) = 2, not the claimed clamp(0.1, 1.0, 2) = 1, and the resulting
point intensity is 10 / 2 = 5 rather than the 10 the clamped factor would
give. -/
theorem daytime_factor_not_clamped :
    intensityFactor 270 = 2 ∧ specClampFactor 270 = 1 ∧
    intensityFactor 270 ≠ specClampFactor 270 ∧
    (updateDaytime 270 90 lightReadyState).pointIntensity = 5 ∧
    (updateDaytime 270 90 lightReadyState).pointIntensity ≠ 10 / specClampFactor 270 := by
  norm_num [intensityFactor, specClampFactor, updateDaytime, lightReadyState,
    max_def, min_def]

/-- C4 amended: for every elevation, updateDaytime multiplies the hemisphere
intensity 0.5 and ambient intensity 0.2 by the factor max(0.1,
(elevation + 90) / 180), divides the point intensity 10 and spot intensity
40 by it, and sets the exposure to max(0.3, factor), hence at least 0.3; the
factor has no upper clamp, but coincides with the claimed clamp(0.1, 1.0,
(elevation + 90) / 180) whenever the elevation lies in [-90, 90]. -/
theorem daytime_scaling (e a : ℚ) (s : LightS)
    (hl : s.loadingComplete = true) (hh : s.hasHemisphere = true)
    (ha : s.hasAmbient = true) (hp : s.hasPoint = true)
    (hs : s.hasSpot = true) (hr : s.hasRenderer = true) :
    (updateDaytime e a s).hemisphereIntensity = (1/2) * intensityFactor e ∧
    (updateDaytime e a s).ambientIntensity = (1/5) * intensityFactor e ∧
    (updateDaytime e a s).pointIntensity = 10 / intensityFactor e ∧
    (updateDaytime e a s).spotIntensity = 40 / intensityFactor e ∧
    (updateDaytime e a s).exposure = max (3/10) (intensityFactor e) ∧
    (3/10 : ℚ) ≤ (updateDaytime e a s).exposure ∧
    (-90 ≤ e → e ≤ 90 → intensityFactor e = specClampFactor e) := by
  have hguard : (s.loadingComplete = false) = False := by simp [hl]
  refine ⟨?_, ?_, ?_, ?_, ?_, ?_, fun hlo hhi => ?_⟩
  · simp [updateDaytime, hguard, hh]
  · simp [updateDaytime, hguard, ha]
  · simp [updateDaytime, hguard, hp]
  · simp [updateDaytime, hguard, hs]
  · simp [updateDaytime, hguard, hr]
  · have : (updateDaytime e a s).exposure = max (3/10) (intensityFactor e) := by
      simp [updateDaytime, hguard, hr]
    rw [this]
    exact le_max_left _ _
  · rw [intensityFactor, specClampFactor,
      min_eq_right ((div_le_one (by norm_num)).mpr (by linarith))]

/-- Witness for C4 amended at elevation 45 over the ready lighting state. -/
theorem daytime_scaling_witness :
    (3/10 : ℚ) ≤ (updateDaytime 45 90 lightReadyState).exposure ∧
    intensityFactor 45 = specClampFactor 45 :=
  ⟨(daytime_scaling 45 90 lightReadyState rfl rfl rfl rfl rfl rfl).2.2.2.2.2.1,
   (daytime_scaling 45 90 lightReadyState rfl rfl rfl rfl rfl rfl).2.2.2.2.2.2
     (by norm_num) (by norm_num)⟩

/-- C8: over elevations in [-90, 90] the intensity factor is monotonically
non-decreasing and stays inside [0.1, 1], while the point and spot
intensities written by updateDaytime are monotonically non-increasing. -/
theorem daytime_monotone (e1 e2 a1 a2 : ℚ) (s : LightS)
    (_hlo : -90 ≤ e1) (h12 : e1 ≤ e2) (hhi : e2 ≤ 90)
    (hl : s.loadingComplete = true) (hp : s.hasPoint = true)
    (hs : s.hasSpot = true) :
    intensityFactor e1 ≤ intensityFactor e2 ∧
    1/10 ≤ intensityFactor e1 ∧ intensityFactor e2 ≤ 1 ∧
    (updateDaytime e2 a2 s).pointIntensity ≤ (updateDaytime e1 a1 s).pointIntensity ∧
    (updateDaytime e2 a2 s).spotIntensity ≤ (updateDaytime e1 a1 s).spotIntensity := by
  have hguard : (s.loadingComplete = false) = False := by simp [hl]
  have hmono : intensityFactor e1 ≤ intensityFactor e2 :=
    max_le_max le_rfl ((div_le_div_iff_of_pos_right (by norm_num)).mpr (by linarith))
  have hpos1 : (0 : ℚ) < intensityFactor e1 :=
    lt_of_lt_of_le (by norm_num) (le_max_left _ _)
  have hpoint : 10 / intensityFactor e2 ≤ 10 / intensityFactor e1 :=
    div_le_div_of_nonneg_left (by norm_num) hpos1 hmono
  have hspot : 40 / intensityFactor e2 ≤ 40 / intensityFactor e1 :=
    div_le_div_of_nonneg_left (by norm_num) hpos1 hmono
  refine ⟨hmono, le_max_left _ _,
    max_le (by norm_num) ((div_le_one (by norm_num)).mpr (by linarith)), ?_, ?_⟩
  · simpa [updateDaytime, hguard, hp] using hpoint
  · simpa [updateDaytime, hguard, hs] using hspot

/-- Witness for C8 on the sweep endpoints -90 and 90 over the ready lighting
state. -/
theorem daytime_monotone_witness :
    intensityFactor (-90) ≤ intensityFactor 90 ∧
    1/10 ≤ intensityFactor (-90) ∧ intensityFactor 90 ≤ 1 ∧
    (updateDaytime 90 90 lightReadyState).pointIntensity ≤
      (updateDaytime (-90) 90 lightReadyState).pointIntensity ∧
    (updateDaytime 90 90 lightReadyState).spotIntensity ≤
      (updateDaytime (-90) 90 lightReadyState).spotIntensity :=
  daytime_monotone (-90) 90 90 90 lightReadyState (by norm_num) (by norm_num)
    (by norm_num) rfl rfl rfl

/-- Rounding bound: if T is below x then T is at most the rounded value. -/
theorem le_jsRound_of_le {T : ℤ} {x : ℚ} (h : (T : ℚ) ≤ x) : T ≤ jsRound x :=
  Int.le_floor.mpr (by linarith)

/-- Rounding bound: if x is below T then the rounded value is at most T. -/
theorem jsRound_le_of_le {T : ℤ} {x : ℚ} (h : x ≤ (T : ℚ)) : jsRound x ≤ T := by
  have h1 : ⌊x + 1/2⌋ ≤ ⌊(T : ℚ) + 1/2⌋ := Int.floor_le_floor (by linarith)
  have h2 : ⌊(T : ℚ) + 1/2⌋ = T := by
    rw [Int.floor_int_add]
    norm_num
  rw [jsRound]
  omega

/-- Peeling the last tick off an iterated run. -/
theorem runTicks_succ_back (n : ℕ) :
    ∀ (ds : ℕ → ℚ) (s : AnimationState),
      runTicks ds (n + 1) s = tick (ds n) (runTicks ds n s) := by
  induction n with
  | zero => intro ds s; rfl
  | succ m ih =>
    intro ds s
    show runTicks (fun i => ds (i + 1)) (m + 1) (tick (ds 0) s) = _
    rw [ih (fun i => ds (i + 1)) (tick (ds 0) s)]
    rfl

/-- A tick never changes the mixer presence, the target frame, the speed or
the stored callback. -/
theorem tick_fixed_fields (d : ℚ) (s : AnimationState) :
    (tick d s).hasMixer = s.hasMixer ∧ (tick d s).targetFrame = s.targetFrame ∧
    (tick d s).speed = s.speed ∧ (tick d s).hasCallback = s.hasCallback := by
  rw [tick, updateAnimation]
  split
  · exact ⟨rfl, rfl, rfl, rfl⟩
  · split <;> exact ⟨rfl, rfl, rfl, rfl⟩

/-- Iterated ticks never change the mixer presence, the target frame, the
speed or the stored callback. -/
theorem runTicks_fixed_fields (n : ℕ) :
    ∀ (ds : ℕ → ℚ) (s : AnimationState),
      (runTicks ds n s).hasMixer = s.hasMixer ∧
      (runTicks ds n s).targetFrame = s.targetFrame ∧
      (runTicks ds n s).speed = s.speed ∧
      (runTicks ds n s).hasCallback = s.hasCallback := by
  induction n with
  | zero => intro ds s; exact ⟨rfl, rfl, rfl, rfl⟩
  | succ m ih =>
    intro ds s
    have h1 := ih (fun i => ds (i + 1)) (tick (ds 0) s)
    have h2 := tick_fixed_fields (ds 0) s
    exact ⟨h1.1.trans h2.1, h1.2.1.trans h2.2.1, h1.2.2.1.trans h2.2.2.1,
      h1.2.2.2.trans h2.2.2.2⟩

/-- The completing tick, in full (main.js lines 879-901): both completion
tests pass through to the snap, pause, flag reset and completed callback. -/
theorem updateAnimation_complete (d : ℚ) (s : AnimationState)
    (hm : s.hasMixer = true) (hp : s.isPlaying = true)
    (hdone : (0 < s.direction ∧ s.targetFrame ≤ jsRound (s.mixerTime * 60)) ∨
             (s.direction < 0 ∧ jsRound (s.mixerTime * 60) ≤ s.targetFrame)) :
    updateAnimation d s =
      ({ s with
          isPlaying := false
          direction := 0
          currentFrame := s.targetFrame
          mixerTime := (s.targetFrame : ℚ) / 60
          actionsPaused := true },
       if s.hasCallback = true then
         [⟨s.targetFrame, s.targetFrame, Status.completed⟩]
       else []) := by
  rw [updateAnimation, if_neg (by simp [hm, hp]), if_pos hdone]

/-- The advancing tick, in full (main.js lines 904-919): when neither
completion test passes, actions unpause, the mixer advances by
delta times direction times speed, and currentFrame stores the frame rounded
from the pre-advance mixer time. -/
theorem tick_advance (d : ℚ) (s : AnimationState)
    (hm : s.hasMixer = true) (hp : s.isPlaying = true)
    (hnot : ¬ ((0 < s.direction ∧ s.targetFrame ≤ jsRound (s.mixerTime * 60)) ∨
               (s.direction < 0 ∧ jsRound (s.mixerTime * 60) ≤ s.targetFrame))) :
    tick d s =
      { s with
        actionsPaused := false
        mixerTime := s.mixerTime + d * (s.direction : ℚ) * s.speed
        currentFrame := jsRound (s.mixerTime * 60) } := by
  rw [tick, updateAnimation, if_neg (by simp [hm, hp]), if_neg hnot]

/-- When a completion test already passes, the very next tick completes with
the exact snapped state and the completed callback. -/
theorem completesTo_zero (ds : ℕ → ℚ) (s : AnimationState)
    (hm : s.hasMixer = true) (hp : s.isPlaying = true)
    (hdone : (0 < s.direction ∧ s.targetFrame ≤ jsRound (s.mixerTime * 60)) ∨
             (s.direction < 0 ∧ jsRound (s.mixerTime * 60) ≤ s.targetFrame)) :
    completesTo ds s 0 s.targetFrame s.hasCallback := by
  have h2 := updateAnimation_complete (ds 0) s hm hp hdone
  unfold completesTo
  rw [show runTicks ds (0 + 1) s = (updateAnimation (ds 0) s).1 from rfl,
    show runTicks ds 0 s = s from rfl, h2]
  exact ⟨rfl, rfl, rfl, rfl, rfl, rfl⟩

/-- Completion after the first tick transfers across one peeled tick. -/
theorem completesTo_of_shift (ds : ℕ → ℚ) (s : AnimationState) (n : ℕ)
    (T : ℤ) (cb : Bool)
    (h : completesTo (fun i => ds (i + 1)) (tick (ds 0) s) n T cb) :
    completesTo ds s (n + 1) T cb := by
  unfold completesTo at h ⊢
  simp only [runTicks]
  exact h

/-- Forward seek: while direction is 1 and the per-tick deltas are bounded
below by δ, the controller completes within any N large enough that the
mixer time would pass targetFrame / 60 after N increments of δ times
speed. -/
theorem seek_fwd_core (δ : ℚ) (_hδ : 0 < δ) :
    ∀ (N : ℕ) (ds : ℕ → ℚ) (s : AnimationState),
      s.hasMixer = true → s.isPlaying = true → s.direction = 1 →
      0 < s.speed → (∀ i, δ ≤ ds i) →
      (s.targetFrame : ℚ) ≤ (s.mixerTime + (N : ℚ) * (δ * s.speed)) * 60 →
      ∃ n, n ≤ N ∧ completesTo ds s n s.targetFrame s.hasCallback := by
  intro N
  induction N with
  | zero =>
    intro ds s hm hp hdir hsp hds hB
    norm_num at hB
    have hdone : (0 < s.direction ∧ s.targetFrame ≤ jsRound (s.mixerTime * 60)) ∨
        (s.direction < 0 ∧ jsRound (s.mixerTime * 60) ≤ s.targetFrame) :=
      Or.inl ⟨by rw [hdir]; norm_num, le_jsRound_of_le hB⟩
    exact ⟨0, le_refl 0, completesTo_zero ds s hm hp hdone⟩
  | succ M ih =>
    intro ds s hm hp hdir hsp hds hB
    by_cases hdone : (0 < s.direction ∧ s.targetFrame ≤ jsRound (s.mixerTime * 60)) ∨
        (s.direction < 0 ∧ jsRound (s.mixerTime * 60) ≤ s.targetFrame)
    · exact ⟨0, Nat.zero_le _, completesTo_zero ds s hm hp hdone⟩
    · have hstep := tick_advance (ds 0) s hm hp hdone
      have hmono : δ * s.speed ≤ ds 0 * s.speed :=
        mul_le_mul_of_nonneg_right (hds 0) hsp.le
      have hB1 : ((tick (ds 0) s).targetFrame : ℚ) ≤
          ((tick (ds 0) s).mixerTime + (M : ℚ) * (δ * (tick (ds 0) s).speed)) * 60 := by
        rw [hstep, hdir]
        push_cast
        push_cast at hB
        nlinarith
      obtain ⟨n, hn, hc⟩ := ih (fun i => ds (i + 1)) (tick (ds 0) s)
        (by rw [hstep]; exact hm) (by rw [hstep]; exact hp)
        (by rw [hstep]; exact hdir) (by rw [hstep]; exact hsp)
        (fun i => hds (i + 1)) hB1
      have hT : (tick (ds 0) s).targetFrame = s.targetFrame := by rw [hstep]
      have hcb : (tick (ds 0) s).hasCallback = s.hasCallback := by rw [hstep]
      rw [hT, hcb] at hc
      exact ⟨n + 1, Nat.succ_le_succ hn, completesTo_of_shift ds s n _ _ hc⟩

/-- Backward seek: the mirror image of seek_fwd_core for direction -1. -/
theorem seek_bwd_core (δ : ℚ) (_hδ : 0 < δ) :
    ∀ (N : ℕ) (ds : ℕ → ℚ) (s : AnimationState),
      s.hasMixer = true → s.isPlaying = true → s.direction = -1 →
      0 < s.speed → (∀ i, δ ≤ ds i) →
      (s.mixerTime - (N : ℚ) * (δ * s.speed)) * 60 ≤ (s.targetFrame : ℚ) →
      ∃ n, n ≤ N ∧ completesTo ds s n s.targetFrame s.hasCallback := by
  intro N
  induction N with
  | zero =>
    intro ds s hm hp hdir hsp hds hB
    norm_num at hB
    have hdone : (0 < s.direction ∧ s.targetFrame ≤ jsRound (s.mixerTime * 60)) ∨
        (s.direction < 0 ∧ jsRound (s.mixerTime * 60) ≤ s.targetFrame) :=
      Or.inr ⟨by rw [hdir]; norm_num, jsRound_le_of_le hB⟩
    exact ⟨0, le_refl 0, completesTo_zero ds s hm hp hdone⟩
  | succ M ih =>
    intro ds s hm hp hdir hsp hds hB
    by_cases hdone : (0 < s.direction ∧ s.targetFrame ≤ jsRound (s.mixerTime * 60)) ∨
        (s.direction < 0 ∧ jsRound (s.mixerTime * 60) ≤ s.targetFrame)
    · exact ⟨0, Nat.zero_le _, completesTo_zero ds s hm hp hdone⟩
    · have hstep := tick_advance (ds 0) s hm hp hdone
      have hmono : δ * s.speed ≤ ds 0 * s.speed :=
        mul_le_mul_of_nonneg_right (hds 0) hsp.le
      have hB1 : ((tick (ds 0) s).mixerTime - (M : ℚ) * (δ * (tick (ds 0) s).speed)) * 60 ≤
          ((tick (ds 0) s).targetFrame : ℚ) := by
        rw [hstep, hdir]
        push_cast
        push_cast at hB
        nlinarith
      obtain ⟨n, hn, hc⟩ := ih (fun i => ds (i + 1)) (tick (ds 0) s)
        (by rw [hstep]; exact hm) (by rw [hstep]; exact hp)
        (by rw [hstep]; exact hdir) (by rw [hstep]; exact hsp)
        (fun i => hds (i + 1)) hB1
      have hT : (tick (ds 0) s).targetFrame = s.targetFrame := by rw [hstep]
      have hcb : (tick (ds 0) s).hasCallback = s.hasCallback := by rw [hstep]
      rw [hT, hcb] at hc
      exact ⟨n + 1, Nat.succ_le_succ hn, completesTo_of_shift ds s n _ _ hc⟩

/-- Any seeking state (mixer loaded, playing, direction 1 or -1, positive
speed) with per-tick deltas bounded below by a positive δ completes at some
tick, exactly at its target frame, with the completed callback. -/
theorem seek_converges (ds : ℕ → ℚ) (δ : ℚ) (s : AnimationState)
    (hm : s.hasMixer = true) (hp : s.isPlaying = true)
    (hdir : s.direction = 1 ∨ s.direction = -1)
    (hsp : 0 < s.speed) (hδ : 0 < δ) (hds : ∀ i, δ ≤ ds i) :
    ∃ n, completesTo ds s n s.targetFrame s.hasCallback := by
  have hc : 0 < δ * s.speed := mul_pos hδ hsp
  rcases hdir with hdir | hdir
  · obtain ⟨N, hN⟩ :=
      exists_nat_ge (((s.targetFrame : ℚ) / 60 - s.mixerTime) / (δ * s.speed))
    have h1 : (s.targetFrame : ℚ) / 60 - s.mixerTime ≤ (N : ℚ) * (δ * s.speed) := by
      rw [div_le_iff₀ hc] at hN
      linarith
    have h2 : (s.targetFrame : ℚ) / 60 ≤ s.mixerTime + (N : ℚ) * (δ * s.speed) := by
      linarith
    have hB : (s.targetFrame : ℚ) ≤ (s.mixerTime + (N : ℚ) * (δ * s.speed)) * 60 := by
      have h3 := mul_le_mul_of_nonneg_right h2 (by norm_num : (0:ℚ) ≤ 60)
      calc (s.targetFrame : ℚ) = (s.targetFrame : ℚ) / 60 * 60 := by ring
        _ ≤ (s.mixerTime + (N : ℚ) * (δ * s.speed)) * 60 := h3
    obtain ⟨n, _, hcomp⟩ := seek_fwd_core δ hδ N ds s hm hp hdir hsp hds hB
    exact ⟨n, hcomp⟩
  · obtain ⟨N, hN⟩ :=
      exists_nat_ge ((s.mixerTime - (s.targetFrame : ℚ) / 60) / (δ * s.speed))
    have h1 : s.mixerTime - (s.targetFrame : ℚ) / 60 ≤ (N : ℚ) * (δ * s.speed) := by
      rw [div_le_iff₀ hc] at hN
      linarith
    have h2 : s.mixerTime - (N : ℚ) * (δ * s.speed) ≤ (s.targetFrame : ℚ) / 60 := by
      linarith
    have hB : (s.mixerTime - (N : ℚ) * (δ * s.speed)) * 60 ≤ (s.targetFrame : ℚ) := by
      have h3 := mul_le_mul_of_nonneg_right h2 (by norm_num : (0:ℚ) ≤ 60)
      calc (s.mixerTime - (N : ℚ) * (δ * s.speed)) * 60 ≤
          (s.targetFrame : ℚ) / 60 * 60 := h3
        _ = (s.targetFrame : ℚ) := by ring
    obtain ⟨n, _, hcomp⟩ := seek_bwd_core δ hδ N ds s hm hp hdir hsp hds hB
    exact ⟨n, hcomp⟩

/-- C1: with a mixer loaded and the controller seeking toward its target
(direction 1 or -1, positive speed, per-tick deltas bounded below by a
positive δ), repeated per-tick advance calls terminate: at some tick n the
rounded frame reaches or crosses the target, and that tick snaps the mixer
time to exactly targetFrame / 60 (frame rate 60), pauses all actions, sets
playing to false and direction to 0, sets currentFrame exactly to the
target frame, and invokes the stored callback with status completed. -/
theorem playback_converges_exactly (ds : ℕ → ℚ) (δ : ℚ) (s : AnimationState)
    (hm : s.hasMixer = true) (hp : s.isPlaying = true)
    (hdir : s.direction = 1 ∨ s.direction = -1)
    (hsp : 0 < s.speed) (hδ : 0 < δ) (hds : ∀ i, δ ≤ ds i) :
    ∃ n, completesTo ds s n s.targetFrame s.hasCallback :=
  seek_converges ds δ s hm hp hdir hsp hδ hds

/-- Witness for C1: from the concrete seeking state animCexState (target
frame 100, unit speed, callback stored) with unit deltas, the controller
reaches frame 100 exactly. -/
theorem playback_converges_exactly_witness :
    ∃ n, completesTo (fun _ => 1) animCexState n animCexState.targetFrame
      animCexState.hasCallback :=
  playback_converges_exactly (fun _ => 1) 1 animCexState rfl rfl (Or.inl rfl)
    (by norm_num [animCexState]) (by norm_num) (fun _ => le_refl 1)

/-- The redirecting call (main.js lines 922-947): when the rounded current
frame differs from the target, playToFrame overwrites callback, direction,
target and playing flag and unpauses the actions, with no stop required. -/
theorem playToFrame_seeks (T : ℤ) (b : Bool) (s : AnimationState)
    (hm : s.hasMixer = true) (hne : jsRound (s.mixerTime * 60) ≠ T) :
    playToFrame T b s =
      ({ s with
          hasCallback := b
          direction := if jsRound (s.mixerTime * 60) < T then 1 else -1
          targetFrame := T
          isPlaying := true
          actionsPaused := false },
       if b = true then [⟨jsRound (s.mixerTime * 60), T, Status.started⟩]
       else []) := by
  rw [playToFrame, if_neg (by simp [hm]), if_neg hne]

/-- playToFrame never changes the mixer presence, the speed or the mixer
time. -/
theorem playToFrame_fixed_fields (T : ℤ) (b : Bool) (s : AnimationState) :
    (playToFrame T b s).1.hasMixer = s.hasMixer ∧
    (playToFrame T b s).1.speed = s.speed ∧
    (playToFrame T b s).1.mixerTime = s.mixerTime := by
  rw [playToFrame]
  split
  · exact ⟨rfl, rfl, rfl⟩
  · split
    · exact ⟨rfl, rfl, rfl⟩
    · exact ⟨rfl, rfl, rfl⟩

/-- C5: if playToFrame T1 starts a seek and, k ticks later and before
completion, playToFrame T2 is issued with T2 strictly on the opposite side
of the rounded current frame, then the direction is simply overwritten with
its negation (no stop needed), and the subsequent ticks still converge with
currentFrame exactly T2, mixer time exactly T2 / 60, and the completed
callback. -/
theorem redirect_flips_direction_and_converges
    (s : AnimationState) (T1 T2 : ℤ) (b1 b2 : Bool) (k : ℕ)
    (ds0 ds : ℕ → ℚ) (δ : ℚ)
    (hm : s.hasMixer = true) (hsp : 0 < s.speed) (hδ : 0 < δ)
    (hds : ∀ i, δ ≤ ds i)
    (hopp : ((runTicks ds0 k (playToFrame T1 b1 s).1).direction = 1 ∧
             T2 < jsRound ((runTicks ds0 k (playToFrame T1 b1 s).1).mixerTime * 60)) ∨
            ((runTicks ds0 k (playToFrame T1 b1 s).1).direction = -1 ∧
             jsRound ((runTicks ds0 k (playToFrame T1 b1 s).1).mixerTime * 60) < T2)) :
    (playToFrame T2 b2 (runTicks ds0 k (playToFrame T1 b1 s).1)).1.direction =
      -(runTicks ds0 k (playToFrame T1 b1 s).1).direction ∧
    ∃ n, completesTo ds
      (playToFrame T2 b2 (runTicks ds0 k (playToFrame T1 b1 s).1)).1 n T2 b2 := by
  set sm := runTicks ds0 k (playToFrame T1 b1 s).1 with hsm
  have hmm : sm.hasMixer = true := by
    rw [hsm, (runTicks_fixed_fields k ds0 _).1, (playToFrame_fixed_fields T1 b1 s).1]
    exact hm
  have hspm : 0 < sm.speed := by
    rw [hsm, (runTicks_fixed_fields k ds0 _).2.2.1,
      (playToFrame_fixed_fields T1 b1 s).2.1]
    exact hsp
  rcases hopp with ⟨hd1, hlt⟩ | ⟨hd1, hlt⟩
  · have hne : jsRound (sm.mixerTime * 60) ≠ T2 := ne_of_gt hlt
    have hseek := playToFrame_seeks T2 b2 sm hmm hne
    have hflip : (playToFrame T2 b2 sm).1.direction = -1 := by
      rw [hseek]
      show (if jsRound (sm.mixerTime * 60) < T2 then (1:ℤ) else -1) = -1
      rw [if_neg (not_lt.mpr hlt.le)]
    refine ⟨by rw [hflip, hd1], ?_⟩
    have h3 : (playToFrame T2 b2 sm).1.hasMixer = true := by rw [hseek]; exact hmm
    have h4 : (playToFrame T2 b2 sm).1.isPlaying = true := by rw [hseek]
    have h5 : 0 < (playToFrame T2 b2 sm).1.speed := by rw [hseek]; exact hspm
    have hconv := seek_converges ds δ (playToFrame T2 b2 sm).1 h3 h4
      (Or.inr hflip) h5 hδ hds
    have h1 : (playToFrame T2 b2 sm).1.targetFrame = T2 := by rw [hseek]
    have h2 : (playToFrame T2 b2 sm).1.hasCallback = b2 := by rw [hseek]
    rwa [h1, h2] at hconv
  · have hne : jsRound (sm.mixerTime * 60) ≠ T2 := ne_of_lt hlt
    have hseek := playToFrame_seeks T2 b2 sm hmm hne
    have hflip : (playToFrame T2 b2 sm).1.direction = 1 := by
      rw [hseek]
      show (if jsRound (sm.mixerTime * 60) < T2 then (1:ℤ) else -1) = 1
      rw [if_pos hlt]
    refine ⟨by rw [hflip, hd1]; norm_num, ?_⟩
    have h3 : (playToFrame T2 b2 sm).1.hasMixer = true := by rw [hseek]; exact hmm
    have h4 : (playToFrame T2 b2 sm).1.isPlaying = true := by rw [hseek]
    have h5 : 0 < (playToFrame T2 b2 sm).1.speed := by rw [hseek]; exact hspm
    have hconv := seek_converges ds δ (playToFrame T2 b2 sm).1 h3 h4
      (Or.inl hflip) h5 hδ hds
    have h1 : (playToFrame T2 b2 sm).1.targetFrame = T2 := by rw [hseek]
    have h2 : (playToFrame T2 b2 sm).1.hasCallback = b2 := by rw [hseek]
    rwa [h1, h2] at hconv

/-- Witness for C5: seek from frame 0 toward frame 10, tick once (the mixer
advances to time 1/40, rounded frame 2), then redirect toward frame 0 — the
direction flips from 1 to -1 and the run completes exactly at frame 0. -/
theorem redirect_flips_direction_and_converges_witness :
    (playToFrame 0 true (runTicks (fun _ => 1/60) 1
        (playToFrame 10 true (initializeAnimations initialAnimationState)).1)).1.direction =
      -(runTicks (fun _ => 1/60) 1
          (playToFrame 10 true (initializeAnimations initialAnimationState)).1).direction ∧
    ∃ n, completesTo (fun _ => 1)
      (playToFrame 0 true (runTicks (fun _ => 1/60) 1
          (playToFrame 10 true (initializeAnimations initialAnimationState)).1)).1
      n 0 true :=
  redirect_flips_direction_and_converges (initializeAnimations initialAnimationState)
    10 0 true true 1 (fun _ => 1/60) (fun _ => 1) 1 rfl
    (by norm_num [initializeAnimations, initialAnimationState])
    (by norm_num) (fun _ => le_refl 1)
    (Or.inl ⟨by norm_num [runTicks, tick, updateAnimation, playToFrame,
        initializeAnimations, initialAnimationState, jsRound],
      by norm_num [runTicks, tick, updateAnimation, playToFrame,
        initializeAnimations, initialAnimationState, jsRound]⟩)

end SGI
